import Mathlib

/-!
Verification of the joko-bot webhook-driven extraction pipeline.

This file is a shallow embedding, in Lean 4, of the parts of the repository
that the specification's claims talk about:

* `src/llm/client.py` — the completion cache & retry client
  (`LLMClient._generate_cache_key`, `LLMClient.run_completion`,
  `LLMClient.get_completion_history_cost`);
* `src/notion/client.py` — the block↔text converter
  (`NotionClient.markdown_to_notion_blocks`, `NotionClient.notion_blocks_to_markdown`);
* `app.py` — the webhook signature verification and the extraction
  orchestrator inside `notion_webhook`, together with concrete SHA-256/HMAC.

Modelling conventions, used throughout:

* Python strings are Lean `String`s; operations on them (`strip`, `split`,
  `startswith`, slicing, `int()`) are re-implemented over the character list
  `String.data` so that they are executable and provable.
* Raw HTTP bytes are `List Nat` (each element a byte value `< 256`).
* External collaborators (the LiteLLM provider, the Notion REST surface,
  `json.loads`/`json.dumps`) are oracles supplied as explicit arguments; the
  embedded code is a pure function of them.  An exception raised by a
  collaborator is a value of an outcome type, never a Lean exception, which
  mirrors the fact that the Python code catches them.
* Wall-clock readings (`time.time()`, sleep durations) are not observable in
  the embedding except that each completed `time.sleep(d)` is recorded as the
  value `d` in an explicit list of sleeps, in call order; `time.sleep` on a
  negative duration raises `ValueError`, which `run_completion` does not
  catch — that abnormal exit is recorded in the `raised` field of the run's
  outcome, with no sleep performed.
-/

/-! ## Python string primitives

Reimplementations of the Python `str` operations the sources use, over
`String.data`, so that every proof can proceed by list reasoning. -/

/-- Python `str.strip()`: drop leading and trailing whitespace. -/
def pyStrip (s : String) : String :=
  ⟨((s.data.dropWhile Char.isWhitespace).reverse.dropWhile Char.isWhitespace).reverse⟩

/-- Python `s.endswith(p)`. -/
def pyEndsWith (s p : String) : Bool :=
  p.data.isSuffixOf s.data

/-- Python `s[:-1]`: drop the last character. -/
def pyDropLast (s : String) : String :=
  ⟨s.data.dropLast⟩

/-- Characters-level splitter behind Python `s.split("\n")`: cut at every
newline, keeping empty pieces (`split` on `""` gives `[""]`). -/
def splitNl : List Char → List (List Char)
  | [] => [[]]
  | c :: rest =>
    if c = '\n' then [] :: splitNl rest
    else
      match splitNl rest with
      | [] => [[c]]
      | l :: ls => (c :: l) :: ls

/-- First code points of every run of ten Unicode decimal digits (general
category `Nd`, Unicode 14.0.0 as shipped with CPython 3.11): each run is
`start .. start + 9` with digit values `0 .. 9`.  Python `int()` accepts
exactly these characters as digits, e.g. `int("٧") == 7` (U+0667). -/
def pyDigitStarts : List Nat :=
  [48, 1632, 1776, 1984, 2406, 2534, 2662, 2790, 2918, 3046,
   3174, 3302, 3430, 3558, 3664, 3792, 3872, 4160, 4240, 6112,
   6160, 6470, 6608, 6784, 6800, 6992, 7088, 7232, 7248, 42528,
   43216, 43264, 43472, 43504, 43600, 44016, 65296, 66720, 68912, 69734,
   69872, 69942, 70096, 70384, 70736, 70864, 71248, 71360, 71472, 71904,
   72016, 72784, 73040, 73120, 92768, 92864, 93008, 120782, 120792, 120802,
   120812, 120822, 123200, 123632, 125264, 130032]

/-- Decimal value of a character under Python `int()`: `some v` when the
character lies in a Unicode `Nd` run, `none` otherwise (so `int("½")` and
`int("⑦")` are `ValueError`). -/
def pyDigitVal (c : Char) : Option Nat :=
  match pyDigitStarts.find? (fun a => decide (a ≤ c.toNat ∧ c.toNat ≤ a + 9)) with
  | some a => some (c.toNat - a)
  | none => none

/-- Digit-run parser behind Python `int()`: after the first digit, single
underscores are allowed between digits (`int("1_0") == 10`) but nowhere
else; any character that is not a Unicode decimal digit is a `ValueError`
(`none`). -/
def pyDigitsAux : List Char → Nat → Option Nat
  | [], acc => some acc
  | '_' :: c :: rest, acc =>
    match pyDigitVal c with
    | some d => pyDigitsAux rest (acc * 10 + d)
    | none => none
  | ['_'], _ => none
  | c :: rest, acc =>
    match pyDigitVal c with
    | some d => pyDigitsAux rest (acc * 10 + d)
    | none => none

/-- Unsigned part of Python `int()`: one digit, then `pyDigitsAux`. -/
def pyIntCore (l : List Char) : Option Nat :=
  match l with
  | [] => none
  | c :: rest =>
    match pyDigitVal c with
    | some d => pyDigitsAux rest d
    | none => none

/-- Python `int(s)` on a decimal string: optional surrounding whitespace,
optional single `+`/`-` sign, then underscore-grouped Unicode decimal
digits; `none` models `ValueError`. -/
def pythonInt (s : String) : Option Int :=
  match (pyStrip s).data with
  | '+' :: rest => (pyIntCore rest).map Int.ofNat
  | '-' :: rest => (pyIntCore rest).map fun n => -(n : Int)
  | l => (pyIntCore l).map Int.ofNat

namespace LLM

/-! ## Completion cache & retry client (`src/llm/client.py`)

The client is embedded as a pure function of an explicit `ClientState`
(`completion_history` plus the on-disk pickle cache, keyed by fingerprint)
and a provider oracle giving each attempt's outcome.  `litellm.completion`
raising `RateLimitError` or any other exception becomes the corresponding
`ProviderOutcome` constructor; `completion_cost` raising or returning `None`
becomes `costResult = none`. -/

/-- One chat message `{role, content}`.  The source passes plain dicts; the
claims only compare them, so two string fields suffice. -/
structure Message where
  role : String
  content : String
deriving DecidableEq, Repr

/-- Ordering used to model Python `sorted(kwargs.items())`: lexicographic on
the `(key, value)` pair, exactly as Python compares tuples.  Option values
are modelled as strings. -/
def kwLe (a b : String × String) : Prop :=
  a.1 < b.1 ∨ (a.1 = b.1 ∧ a.2 ≤ b.2)

instance : DecidableRel kwLe := fun a b => by
  unfold kwLe; infer_instance

instance : IsTotal (String × String) kwLe := by
  constructor
  intro a b
  rcases lt_trichotomy a.1 b.1 with h | h | h
  · exact Or.inl (Or.inl h)
  · rcases le_total a.2 b.2 with h2 | h2
    · exact Or.inl (Or.inr ⟨h, h2⟩)
    · exact Or.inr (Or.inr ⟨h.symm, h2⟩)
  · exact Or.inr (Or.inl h)

instance : IsTrans (String × String) kwLe := by
  constructor
  intro a b c hab hbc
  rcases hab with h1 | ⟨h1, h1v⟩
  · rcases hbc with h2 | ⟨h2, _⟩
    · exact Or.inl (h1.trans h2)
    · exact Or.inl (h2 ▸ h1)
  · rcases hbc with h2 | ⟨h2, h2v⟩
    · exact Or.inl (h1 ▸ h2)
    · exact Or.inr ⟨h1.trans h2, h1v.trans h2v⟩

instance : IsAntisymm (String × String) kwLe := by
  constructor
  intro a b hab hba
  rcases hab with h1 | ⟨h1, h1v⟩
  · rcases hba with h2 | ⟨h2, _⟩
    · exact absurd (h1.trans h2) (lt_irrefl _)
    · exact absurd h1 (h2 ▸ lt_irrefl _)
  · rcases hba with h2 | ⟨h2, h2v⟩
    · exact absurd h2 (h1 ▸ lt_irrefl _)
    · exact Prod.ext h1 (le_antisymm h1v h2v)

/-- The canonical `stable_input` of `_generate_cache_key`: model name, message
sequence verbatim, and `sorted(kwargs.items())`.  The source feeds
`pickle.dumps` of this structure to `hashlib.md5`; pickling is injective on
these structures and the spec treats the digest as collision-free
("any collision-resistant digest suffices"), so the digest is modelled by its
canonical pre-image. -/
structure CacheKey where
  model : String
  messages : List Message
  kwargs : List (String × String)
deriving DecidableEq, Repr

/-- `LLMClient._generate_cache_key`: canonical fingerprint of a completion
request, with option keys sorted so that key order is irrelevant. -/
def _generate_cache_key (model : String) (messages : List Message)
    (kwargs : List (String × String)) : CacheKey :=
  { model := model, messages := messages,
    kwargs := List.insertionSort kwLe kwargs }

/-- `response.usage`: token counts, each possibly `None` (the source applies
`or 0`). -/
structure Usage where
  prompt_tokens : Option Nat
  completion_tokens : Option Nat
deriving DecidableEq, Repr

/-- `choices[i].message`: `content` is `none` for a missing/`None` content
field; the empty string is a distinct (falsy) value. -/
structure ChoiceMessage where
  content : Option String
deriving DecidableEq, Repr

/-- One entry of `response.choices`. -/
structure Choice where
  message : ChoiceMessage
deriving DecidableEq, Repr

/-- `litellm.ModelResponse`, restricted to the fields the repository reads. -/
structure ModelResponse where
  id : String
  usage : Option Usage
  choices : List Choice
deriving DecidableEq, Repr

/-- One entry of the `details` list of a rate-limit error payload: the
`"@type"` discriminator and the optional `"retryDelay"` string.  A detail
item that is not a dict, or whose delay is not a string, is modelled with
`retryDelay = none` (the source's `isinstance` guards skip it). -/
structure DetailItem where
  atType : String
  retryDelay : Option String
deriving DecidableEq, Repr

/-- A `litellm.RateLimitError`: `text` is `str(rle)`; `details = none` models
`rle.response.json()` raising, or the body having no `"details"` list. -/
structure RatePayload where
  text : String
  details : Option (List DetailItem)
deriving DecidableEq, Repr

/-- Outcome of one `litellm.completion` call: success (with the
`completion_cost` collaborator's result, `none` when it raises or returns
`None`), a rate-limit error, or any other exception (`str(e)`). -/
inductive ProviderOutcome where
  | success (resp : ModelResponse) (costResult : Option ℚ)
  | rateLimited (p : RatePayload)
  | failure (text : String)

/-- The `"@type"` value the retry-delay scan looks for. -/
def RETRY_INFO_TYPE : String := "type.googleapis.com/google.rpc.RetryInfo"

/-- The scan over `error_json["details"]` in `run_completion`: the first
`RetryInfo` item with a truthy string delay ending in `"s"` is parsed with
`int(delay_str[:-1])`; a parse failure there raises, which the source catches
and turns into "no delay" — later items are then not examined. -/
def findRetryDelay : List DetailItem → Option Int
  | [] => none
  | d :: rest =>
    if d.atType = RETRY_INFO_TYPE then
      match d.retryDelay with
      | some s =>
        if s ≠ "" ∧ pyEndsWith s "s" then pythonInt (pyDropLast s)
        else findRetryDelay rest
      | none => findRetryDelay rest
    else findRetryDelay rest

/-- Provider-suggested retry delay of a rate-limit payload, or `none` when
the payload is unreadable or carries no parsable delay. -/
def extractRetryDelay (p : RatePayload) : Option Int :=
  match p.details with
  | none => none
  | some items => findRetryDelay items

/-- `MAX_RETRIES` from `run_completion`. -/
def MAX_RETRIES : Nat := 3

/-- `BASE_DEFAULT_RETRY_DELAY` from `run_completion` (seconds). -/
def BASE_DEFAULT_RETRY_DELAY : Int := 5

/-- Values live across the retry loop of `run_completion`: its return value,
the `success`/`error_message` flags, the usage/cost numbers, plus the
observable effects (sleeps in order, number of provider calls). -/
structure LoopResult where
  response : Option ModelResponse
  success : Bool
  errorMessage : Option String
  cost : ℚ
  promptTokens : Nat
  completionTokens : Nat
  sleeps : List Int
  calls : Nat
  raised : Option Int
deriving Repr

/-- The retry loop of `run_completion`.  `fuel` is the number of remaining
iterations of `for attempt in range(MAX_RETRIES)` (so `attempt + fuel =
MAX_RETRIES` at every entry, and `attempt < MAX_RETRIES - 1` is `fuel ≥ 2`);
`errAcc`/`sleepAcc`/`callAcc` thread `error_message`, the sleeps performed,
and the number of provider calls.  A rate-limit error on a non-final attempt
sleeps the provider-suggested delay if one parses, else
`BASE_DEFAULT_RETRY_DELAY * 2 ^ attempt`, and retries; on the final attempt
it exits with no sleep.  Any other error exits immediately with no sleep.
CPython `time.sleep` raises `ValueError` when its argument is negative, so a
negative parsed delay aborts the loop — and, uncaught, the whole call —
without sleeping: `raised := some d` records that propagating `ValueError`
together with the rejected duration (`raised = none` is a normal exit). -/
def runAttempts (provider : Nat → ProviderOutcome) :
    Nat → Nat → Option String → List Int → Nat → LoopResult
  | _, 0, errAcc, sleepAcc, callAcc =>
    { response := none, success := false, errorMessage := errAcc, cost := 0,
      promptTokens := 0, completionTokens := 0, sleeps := sleepAcc, calls := callAcc,
      raised := none }
  | attempt, fuel + 1, errAcc, sleepAcc, callAcc =>
    match provider attempt with
    | .success resp costResult =>
      { response := some resp, success := true, errorMessage := errAcc,
        cost := costResult.getD 0,
        promptTokens := (resp.usage.map fun u => u.prompt_tokens.getD 0).getD 0,
        completionTokens := (resp.usage.map fun u => u.completion_tokens.getD 0).getD 0,
        sleeps := sleepAcc, calls := callAcc + 1, raised := none }
    | .rateLimited q =>
      if fuel = 0 then
        { response := none, success := false, errorMessage := some q.text, cost := 0,
          promptTokens := 0, completionTokens := 0, sleeps := sleepAcc,
          calls := callAcc + 1, raised := none }
      else
        if (extractRetryDelay q).getD (BASE_DEFAULT_RETRY_DELAY * 2 ^ attempt) < 0 then
          { response := none, success := false, errorMessage := some q.text, cost := 0,
            promptTokens := 0, completionTokens := 0, sleeps := sleepAcc,
            calls := callAcc + 1,
            raised := some ((extractRetryDelay q).getD (BASE_DEFAULT_RETRY_DELAY * 2 ^ attempt)) }
        else
          runAttempts provider (attempt + 1) fuel (some q.text)
            (sleepAcc ++ [(extractRetryDelay q).getD (BASE_DEFAULT_RETRY_DELAY * 2 ^ attempt)])
            (callAcc + 1)
    | .failure msg =>
      { response := none, success := false, errorMessage := some msg, cost := 0,
        promptTokens := 0, completionTokens := 0, sleeps := sleepAcc,
        calls := callAcc + 1, raised := none }

/-- One record of `self.completion_history`.  The wall-clock `timestamp` and
`duration_seconds` fields are real-time readings and are not modelled; every
other field of the appended dict is present. -/
structure HistoryRecord where
  model : String
  messages : List Message
  kwargs : List (String × String)
  success : Bool
  error : Option String
  response_id : Option String
  prompt_tokens : Nat
  completion_tokens : Nat
  cost_dollars : ℚ
  cached_result_used : Bool
deriving Repr

/-- The mutable state of an `LLMClient`: its in-memory history and the
on-disk completion cache (one immutable artifact per fingerprint, modelled
as an association list), plus `default_model`. -/
structure ClientState where
  completion_history : List HistoryRecord
  cache : List (CacheKey × ModelResponse)
  default_model : String

/-- Cache lookup by fingerprint (`cache_filepath.exists()` plus
`pickle.load`; a stored artifact is assumed to load back, matching the
write-once layout). -/
def lookupCache : List (CacheKey × ModelResponse) → CacheKey → Option ModelResponse
  | [], _ => none
  | e :: rest, k => if e.1 = k then some e.2 else lookupCache rest k

/-- Python `model = model or self.default_model` (the empty string is falsy). -/
def resolveModel (st : ClientState) (modelArg : Option String) : String :=
  match modelArg with
  | some m => if m = "" then st.default_model else m
  | none => st.default_model

/-- Everything observable about one `run_completion` call: how it exited
(`raised = none`: a normal return carrying `response`; `raised = some d`:
the `time.sleep(d)` `ValueError` for a negative `d` propagated and no value
was returned), the client state afterwards, and the effects performed
(sleep durations in order, number of provider calls). -/
structure RunOutput where
  response : Option ModelResponse
  state : ClientState
  sleeps : List Int
  providerCalls : Nat
  raised : Option Int

/-- `LLMClient.run_completion`: compute the fingerprint; on a cache hit
return the stored artifact with no provider call, no history record and no
sleep; on a miss run the retry loop, append exactly one history record, and
persist a successful response to the cache under the fingerprint.  When the
loop aborts with the `time.sleep` `ValueError` (negative parsed retry
delay), the exception propagates before the history append and the cache
write are reached, so the client state is returned unchanged with
`raised = some d`. -/
def run_completion (st : ClientState) (provider : Nat → ProviderOutcome)
    (messages : List Message) (modelArg : Option String)
    (kwargs : List (String × String)) : RunOutput :=
  let model := resolveModel st modelArg
  let key := _generate_cache_key model messages kwargs
  match lookupCache st.cache key with
  | some cached =>
    { response := some cached, state := st, sleeps := [], providerCalls := 0,
      raised := none }
  | none =>
    let r := runAttempts provider 0 MAX_RETRIES none [] 0
    let record : HistoryRecord :=
      { model := model, messages := messages, kwargs := kwargs,
        success := r.success, error := r.errorMessage,
        response_id :=
          match r.response with
          | some resp => if r.success then some resp.id else none
          | none => none,
        prompt_tokens := r.promptTokens, completion_tokens := r.completionTokens,
        cost_dollars := r.cost, cached_result_used := false }
    let newCache :=
      match r.response with
      | some resp => if r.success then st.cache ++ [(key, resp)] else st.cache
      | none => st.cache
    let newState : ClientState :=
      { completion_history := st.completion_history ++ [record],
        cache := newCache, default_model := st.default_model }
    match r.raised with
    | some d =>
      { response := none, state := st, sleeps := r.sleeps, providerCalls := r.calls,
        raised := some d }
    | none =>
      { response := r.response, state := newState,
        sleeps := r.sleeps, providerCalls := r.calls, raised := none }

/-- `LLMClient.get_completion_history_cost`: total `cost_dollars` over the
history (which holds only non-cached calls). -/
def get_completion_history_cost (st : ClientState) : ℚ :=
  st.completion_history.foldl (fun acc r => acc + r.cost_dollars) 0

end LLM

namespace Notion

/-! ## Block↔text converter (`src/notion/client.py`)

A Notion block is a dict `{object, type, <type>: {rich_text: [...]}}`; the
converter reads only the `type` tag and the `rich_text` list, each run of
which contributes `rt["text"]["content"]`.  So a block is embedded as its
type tag plus the list of text-run contents; every unhandled type tag is the
`unsupported` constructor. -/

end Notion

namespace Crypto

/-! ## SHA-256 and HMAC (`hashlib.sha256`, `hmac.new`)

Executable FIPS 180-4 SHA-256 and FIPS 198-1 HMAC over byte lists
(`List Nat`, each element `< 256`), with 32-bit words as `Nat` reduced
modulo `2 ^ 32`. -/

/-- Reduce to a 32-bit word. -/
def w32 (x : Nat) : Nat := x % 4294967296

/-- Right-rotation of a 32-bit word. -/
def rotr (n x : Nat) : Nat := w32 ((x >>> n) ||| (x <<< (32 - n)))

/-- Bitwise complement of a 32-bit word. -/
def not32 (x : Nat) : Nat := x ^^^ 4294967295

/-- SHA-256 `Ch`. -/
def ch (x y z : Nat) : Nat := (x &&& y) ^^^ (not32 x &&& z)

/-- SHA-256 `Maj`. -/
def maj (x y z : Nat) : Nat := (x &&& y) ^^^ (x &&& z) ^^^ (y &&& z)

/-- SHA-256 `Σ₀`. -/
def bsig0 (x : Nat) : Nat := rotr 2 x ^^^ rotr 13 x ^^^ rotr 22 x

/-- SHA-256 `Σ₁`. -/
def bsig1 (x : Nat) : Nat := rotr 6 x ^^^ rotr 11 x ^^^ rotr 25 x

/-- SHA-256 `σ₀`. -/
def ssig0 (x : Nat) : Nat := rotr 7 x ^^^ rotr 18 x ^^^ (x >>> 3)

/-- SHA-256 `σ₁`. -/
def ssig1 (x : Nat) : Nat := rotr 17 x ^^^ rotr 19 x ^^^ (x >>> 10)

/-- The 64 SHA-256 round constants. -/
def sha256K : List Nat :=
  [1116352408, 1899447441, 3049323471, 3921009573, 961987163,
   1508970993, 2453635748, 2870763221, 3624381080, 310598401,
   607225278, 1426881987, 1925078388, 2162078206, 2614888103,
   3248222580, 3835390401, 4022224774, 264347078, 604807628,
   770255983, 1249150122, 1555081692, 1996064986, 2554220882,
   2821834349, 2952996808, 3210313671, 3336571891, 3584528711,
   113926993, 338241895, 666307205, 773529912, 1294757372,
   1396182291, 1695183700, 1986661051, 2177026350, 2456956037,
   2730485921, 2820302411, 3259730800, 3345764771, 3516065817,
   3600352804, 4094571909, 275423344, 430227734, 506948616,
   659060556, 883997877, 958139571, 1322822218, 1537002063,
   1747873779, 1955562222, 2024104815, 2227730452, 2361852424,
   2428436474, 2756734187, 3204031479, 3329325298]

/-- The eight SHA-256 initial hash values. -/
def sha256H0 : List Nat :=
  [1779033703, 3144134277, 1013904242, 2773480762,
   1359893119, 2600822924, 528734635, 1541459225]

/-- Big-endian serialization of `v` to `n` bytes. -/
def beBytes : Nat → Nat → List Nat
  | 0, _ => []
  | n + 1, v => beBytes n (v / 256) ++ [v % 256]

/-- FIPS 180-4 §5.1.1 padding: append `0x80`, zero bytes to 56 mod 64, then
the bit length as 8 big-endian bytes. -/
def sha256Pad (msg : List Nat) : List Nat :=
  let len := msg.length
  let zeros := (120 - (len + 1) % 64) % 64
  msg ++ [128] ++ List.replicate zeros 0 ++ beBytes 8 (len * 8)

/-- Split into 64-byte chunks. -/
def chunks64 (l : List Nat) : List (List Nat) :=
  if h : l = [] then []
  else l.take 64 :: chunks64 (l.drop 64)
termination_by l.length
decreasing_by
  have hl : 0 < l.length := List.length_pos.mpr h
  simp only [List.length_drop]
  omega

/-- Reassemble bytes into big-endian 32-bit words. -/
def toWords : List Nat → List Nat
  | b0 :: b1 :: b2 :: b3 :: rest =>
    (((b0 * 256 + b1) * 256 + b2) * 256 + b3) :: toWords rest
  | _ => []

/-- Append the next word of the message schedule. -/
def stepW (w : List Nat) : List Nat :=
  let t := w.length
  w ++ [w32 (ssig1 (w.getD (t - 2) 0) + w.getD (t - 7) 0
    + ssig0 (w.getD (t - 15) 0) + w.getD (t - 16) 0)]

/-- Extend the 16-word schedule by `n` further words. -/
def buildW : List Nat → Nat → List Nat
  | w, 0 => w
  | w, n + 1 => buildW (stepW w) n

/-- One SHA-256 compression round on the working state `[a,…,h]`. -/
def roundFn (kw : Nat × Nat) (st : List Nat) : List Nat :=
  match st with
  | [a, b, c, d, e, f, g, h] =>
    let t1 := w32 (h + bsig1 e + ch e f g + kw.1 + kw.2)
    let t2 := w32 (bsig0 a + maj a b c)
    [w32 (t1 + t2), a, b, c, w32 (d + t1), e, f, g]
  | _ => st

/-- All 64 compression rounds. -/
def compressRounds : List (Nat × Nat) → List Nat → List Nat
  | [], st => st
  | kw :: rest, st => compressRounds rest (roundFn kw st)

/-- Process one 64-byte chunk into the running 8-word hash state. -/
def sha256Compress (st chunk : List Nat) : List Nat :=
  let w := buildW (toWords chunk) 48
  let final := compressRounds (sha256K.zip w) st
  (st.zip final).map fun p => w32 (p.1 + p.2)

/-- SHA-256 of a byte list, as 32 bytes. -/
def sha256 (msg : List Nat) : List Nat :=
  (((chunks64 (sha256Pad msg)).foldl sha256Compress sha256H0).map (beBytes 4)).flatten

/-- FIPS 198-1 HMAC-SHA256 (`hmac.new(secret, message, hashlib.sha256)`):
a key longer than the 64-byte block is hashed first, then zero-padded;
digest of `opad ‖ digest (ipad ‖ msg)`. -/
def hmacSha256 (key msg : List Nat) : List Nat :=
  let k0 := if 64 < key.length then sha256 key else key
  let k1 := k0 ++ List.replicate (64 - k0.length) 0
  sha256 ((k1.map fun b => b ^^^ 92) ++ sha256 ((k1.map fun b => b ^^^ 54) ++ msg))

/-- Lower-case hex character of a nibble. -/
def hexChar (n : Nat) : Char :=
  if n < 10 then Char.ofNat (48 + n) else Char.ofNat (87 + n)

/-- Two hex characters of a byte. -/
def hexByte (b : Nat) : List Char := [hexChar (b / 16), hexChar (b % 16)]

/-- Python `.hexdigest()`: lower-case hex string of a byte list. -/
def hexDigest (bs : List Nat) : String := ⟨bs.flatMap hexByte⟩

end Crypto

namespace Webhook

/-! ## Webhook signature verification (`app.py`, `notion_webhook` step 2)

The raw body, the timestamp header and the shared secret are byte lists; the
signature headers are strings.  `hmac.compare_digest` is modelled by its
return value (plain equality) — its constant-time execution is a timing
property outside a functional embedding. -/

/-- The three signature-related request headers; `none` is a missing header,
and the code treats an empty header value as missing too (Python truthiness),
which `truthyStr`/`truthyBytes` below normalize. -/
structure SigHeaders where
  sigV2 : Option String
  timestamp : Option (List Nat)
  sigV1 : Option String
deriving Repr

/-- Outcome of the verification step: fall through to event processing, or
one of the three aborts the source raises. -/
inductive VerifyOutcome where
  | accepted
  | abortMissingSignature
  | abortSecretNotSet
  | abortInvalidSignature
deriving DecidableEq, Repr

/-- Python truthiness of an optional string header. -/
def truthyStr : Option String → Option String
  | some s => if s = "" then none else some s
  | none => none

/-- Python truthiness of an optional byte-list header. -/
def truthyBytes : Option (List Nat) → Option (List Nat)
  | some l => if l = [] then none else some l
  | none => none

/-- Characters after the last `=`, i.e. Python `signature.split("=")[-1]`. -/
def lastSplitEqChars (l : List Char) : List Char :=
  l.foldl (fun acc c => if c = '=' then [] else acc ++ [c]) []

/-- Python `signature.split("=")[-1]` on a string. -/
def lastSplitEq (s : String) : String := ⟨lastSplitEqChars s.data⟩

/-- `hmac.compare_digest`, modelled by its return value. -/
def compare_digest (a b : String) : Bool := a == b

/-- The signature validation of `notion_webhook`: prefer the V2 headers
(signature + timestamp, both truthy), signing `timestamp : body`; fall back
to the V1 header, signing the body alone; abort 400 when no signature header
is present, abort 500 when the configured secret is falsy; compare the
HMAC-SHA256 hex digest against the header's last `=`-separated component;
mismatch aborts 401. -/
def notionWebhookVerify (headers : SigHeaders) (body secret : List Nat) :
    VerifyOutcome :=
  let chosen : Option (String × List Nat) :=
    match truthyStr headers.sigV2, truthyBytes headers.timestamp with
    | some sig, some ts => some (sig, ts ++ 58 :: body)
    | _, _ =>
      match truthyStr headers.sigV1 with
      | some sig => some (sig, body)
      | none => none
  match chosen with
  | none => .abortMissingSignature
  | some (sig, message) =>
    if secret = [] then .abortSecretNotSet
    else
      let calculated := Crypto.hexDigest (Crypto.hmacSha256 secret message)
      if compare_digest calculated (lastSplitEq sig) then .accepted
      else .abortInvalidSignature

/-- Flip one character: `0` becomes `1`, anything else becomes `0`, so the
result always differs from the input. -/
def flipChar (c : Char) : Char := if c = '0' then '1' else '0'

/-- Flip the byte at index `i` of a signature string. -/
def flipAt (s : String) (i : Nat) : String :=
  ⟨s.data.set i (flipChar (s.data.getD i '0'))⟩

/-! ## Extraction orchestrator (`app.py`, `notion_webhook` step 3)

The post-verification half of `notion_webhook` is embedded as a function
from an event environment to the ordered list of collaborator calls it
performs plus the `processed_page_id` of its acknowledgment.  The Notion
REST collaborator and `json.loads`/`json.dumps` are oracles in the
environment: `pageStatus` is what `get_page_status` returns, `getPageOk` /
`getContentOk` say whether `get_page`/`get_page_content` raise (a raise
lands in the `except` block, whose best-effort `update_page_status("Error
Processing")` is modelled as succeeding), `llmResponse` is what
`llm_client.run_completion` returns, and `jsonParse`/`dumps` decide
`json.loads` and render `json.dumps(·, indent=2)` over an abstract document
type `J`.  The prompt strings passed to the completion client are not
modelled — no claim mentions their content — so the `runCompletion` action
records only the hard-coded model name. -/

/-- One collaborator call of the pipeline, in execution order. -/
inductive PipeAction where
  | readStatus (pageId : String)
  | updateStatus (pageId : String) (status : String)
  | getPage (pageId : String)
  | getPageContent (pageId : String)
  | runCompletion (model : String)
  | appendBlock (pageId : String) (content : String)
deriving DecidableEq, Repr

/-- The `data["entity"]` object when present: `entity.get("id")` (falsy
normalized to `none`) and `entity.get("type", "")`. -/
structure EntityData where
  id : Option String
  typ : String

/-- The environment of one verified webhook delivery: the parsed event
fields plus the collaborator oracles. -/
structure EventEnv (J : Type) where
  eventType : Option String
  eventId : Option String
  entity : Option EntityData
  pageStatus : Option String
  getPageOk : Bool
  getContentOk : Bool
  llmResponse : Option LLM.ModelResponse
  jsonParse : String → Option J
  dumps : J → String

/-- The model name hard-coded at the `run_completion` call site. -/
def GEMINI_MODEL : String := "gemini/gemini-2.5-flash-preview-04-17"

/-- `page_id` resolution: `data.get("event", {}).get("id")`, falling back to
`data.get("entity", {}).get("id")` when the former is falsy and an entity is
present. -/
def resolvePageId (env : EventEnv J) : Option String :=
  match env.eventId with
  | some pid => some pid
  | none =>
    match env.entity with
    | some e => e.id
    | none => none

/-- Naive substring test (Python `needle in haystack`). -/
def charsContain (hay needle : List Char) : Bool :=
  needle.isPrefixOf hay ||
    match hay with
    | [] => false
    | _ :: rest => charsContain rest needle

/-- Python `"page" in data.get("entity", {}).get("type", "")`. -/
def entityTypeHasPage (env : EventEnv J) : Bool :=
  charsContain (match env.entity with
    | some e => e.typ.data
    | none => "".data) "page".data

/-- The page-event guard: one of the three recognized event types, or an
entity type containing `"page"`. -/
def isPageEvent (env : EventEnv J) : Bool :=
  env.eventType == some "page.created" || env.eventType == some "page.updated"
    || env.eventType == some "page.content_updated" || entityTypeHasPage env

/-- Truthiness of `llm_response and llm_response.choices and
llm_response.choices[0].message.content`: the content of the first choice
when the response, its choice list and that content are all truthy. -/
def contentOf : Option LLM.ModelResponse → Option String
  | some resp =>
    match resp.choices with
    | c :: _ =>
      match c.message.content with
      | some s => if s = "" then none else some s
      | none => none
    | [] => none
  | none => none

/-- The eligible-path body of `notion_webhook` (inside
`if current_status == "Ready for analysis"`), as the list of collaborator
calls it performs.  The `try` block first transitions to `"In progress"`,
then fetches the page and its content (a raise lands in `except`, which
transitions to `"Error Processing"`), converts blocks to markdown, calls the
completion client, and then: no usable content → `"Error Processing"`;
unparsable JSON → `"Error Processing"`; parsed JSON → append one `json` code
block holding `json.dumps(parsed_json, indent=2)`, then `"Done"`. -/
def processEligible (env : EventEnv J) (pid : String) : List PipeAction :=
  PipeAction.updateStatus pid "In progress" ::
    if !env.getPageOk then
      [PipeAction.getPage pid, PipeAction.updateStatus pid "Error Processing"]
    else
      PipeAction.getPage pid ::
        if !env.getContentOk then
          [PipeAction.getPageContent pid,
           PipeAction.updateStatus pid "Error Processing"]
        else
          PipeAction.getPageContent pid ::
            PipeAction.runCompletion GEMINI_MODEL ::
              match contentOf env.llmResponse with
              | none => [PipeAction.updateStatus pid "Error Processing"]
              | some s =>
                match env.jsonParse s with
                | none => [PipeAction.updateStatus pid "Error Processing"]
                | some j =>
                  [PipeAction.appendBlock pid (env.dumps j),
                   PipeAction.updateStatus pid "Done"]

/-- The event-handling step of `notion_webhook` after signature validation:
resolve the page id; when the guard recognizes a page event, read the status
and process only a `"Ready for analysis"` page (any other status, or an
undetermined one, is skipped with no further call); always acknowledge with
`{"received": True, "processed_page_id": page_id}`. -/
def processEvent (env : EventEnv J) : List PipeAction × Option String :=
  match resolvePageId env with
  | none => ([], none)
  | some pid =>
    if isPageEvent env then
      (PipeAction.readStatus pid ::
        (match env.pageStatus with
         | some st => if st = "Ready for analysis" then processEligible env pid else []
         | none => []),
       some pid)
    else ([], some pid)

/-- Status written by an action, when it is a transition. -/
def statusWritten : PipeAction → Option String
  | .updateStatus _ s => some s
  | _ => none

/-- Content appended by an action, when it is a block append. -/
def contentAppended : PipeAction → Option String
  | .appendBlock _ c => some c
  | _ => none

/-- Whether an action is a `get_page_content` fetch. -/
def isContentFetch : PipeAction → Bool
  | .getPageContent _ => true
  | _ => false

/-- Whether an action is a completion-client call. -/
def isCompletionCall : PipeAction → Bool
  | .runCompletion _ => true
  | _ => false

end Webhook

/-! ## Sample values

Concrete inputs reused by the witness theorems below. -/

/-- A sample provider response. -/
def sampleResp : LLM.ModelResponse :=
  { id := "resp-1", usage := some { prompt_tokens := some 3, completion_tokens := some 5 },
    choices := [{ message := { content := some "ok" } }] }

/-- A sample cache fingerprint. -/
def sampleKey : LLM.CacheKey := LLM._generate_cache_key "gemini/test" [] []

/-- A client whose cache already holds an artifact for `sampleKey`. -/
def sampleStateHit : LLM.ClientState :=
  { completion_history := [], cache := [(sampleKey, sampleResp)],
    default_model := "gemini/test" }

/-- A provider that rate-limits every attempt; the payload of attempt `k`
carries no readable details. -/
def sampleRateLimiter : Nat → LLM.ProviderOutcome := fun k =>
  .rateLimited { text := "rate limit " ++ toString k, details := none }

/-- A webhook event environment for a page event with the given status and
completion result; `json.loads` is the oracle accepting exactly the text
`"{}"` (as the document `0`), rendered back by `dumps` as `"null"`. -/
def sampleEnv (status : Option String) (llm : Option LLM.ModelResponse) :
    Webhook.EventEnv Nat :=
  { eventType := some "page.updated", eventId := some "page-1", entity := none,
    pageStatus := status, getPageOk := true, getContentOk := true,
    llmResponse := llm,
    jsonParse := fun s => if s = "\x7b\x7d" then some 0 else none,
    dumps := fun _ => "null" }

/-! ## Theorems -/

/-- Helper: `sorted(kwargs.items())` is invariant under permutation of the
item list, because `kwLe` is a total antisymmetric order on pairs. -/
theorem insertionSort_kwLe_eq_of_perm {l1 l2 : List (String × String)}
    (h : l1.Perm l2) :
    List.insertionSort LLM.kwLe l1 = List.insertionSort LLM.kwLe l2 :=
  List.eq_of_perm_of_sorted
    ((List.perm_insertionSort _ l1).trans (h.trans (List.perm_insertionSort _ l2).symm))
    (List.sorted_insertionSort _ l1) (List.sorted_insertionSort _ l2)

/-- C1: a completion request whose fingerprint already has a cached artifact
returns that artifact immediately: the provider is called zero times, no
sleep happens, no history record is appended (the whole client state is
unchanged), and the accounted cost is exactly as before the call. -/
theorem c1_cache_hit_side_effect_free (st : LLM.ClientState)
    (provider : Nat → LLM.ProviderOutcome) (messages : List LLM.Message)
    (modelArg : Option String) (kwargs : List (String × String))
    (resp : LLM.ModelResponse)
    (hhit : LLM.lookupCache st.cache
      (LLM._generate_cache_key (LLM.resolveModel st modelArg) messages kwargs) = some resp) :
    (LLM.run_completion st provider messages modelArg kwargs).response = some resp
    ∧ (LLM.run_completion st provider messages modelArg kwargs).state = st
    ∧ (LLM.run_completion st provider messages modelArg kwargs).providerCalls = 0
    ∧ (LLM.run_completion st provider messages modelArg kwargs).sleeps = []
    ∧ LLM.get_completion_history_cost
        (LLM.run_completion st provider messages modelArg kwargs).state
      = LLM.get_completion_history_cost st := by
  simp [LLM.run_completion, hhit]

/-- Witness for C1 at a concrete client whose cache holds `sampleKey`. -/
theorem c1_cache_hit_side_effect_free_witness :
    (LLM.run_completion sampleStateHit sampleRateLimiter [] none []).response = some sampleResp
    ∧ (LLM.run_completion sampleStateHit sampleRateLimiter [] none []).state = sampleStateHit
    ∧ (LLM.run_completion sampleStateHit sampleRateLimiter [] none []).providerCalls = 0
    ∧ (LLM.run_completion sampleStateHit sampleRateLimiter [] none []).sleeps = []
    ∧ LLM.get_completion_history_cost
        (LLM.run_completion sampleStateHit sampleRateLimiter [] none []).state
      = LLM.get_completion_history_cost sampleStateHit :=
  c1_cache_hit_side_effect_free sampleStateHit sampleRateLimiter [] none [] sampleResp
    (by decide)

/-- C2: the cache fingerprint ignores option key order — two requests with
the same model and messages whose option items are a permutation of each
other collide — while the message sequence is order-significant: requests
differing only in message order (a permutation that is not equal as a
sequence) get distinct fingerprints. -/
theorem c2_fingerprint_option_order_message_order (model : String)
    (msgs msgs1 msgs2 : List LLM.Message) (kw1 kw2 : List (String × String)) :
    (kw1.Perm kw2 →
      LLM._generate_cache_key model msgs kw1 = LLM._generate_cache_key model msgs kw2)
    ∧ (msgs1.Perm msgs2 → msgs1 ≠ msgs2 →
      LLM._generate_cache_key model msgs1 kw1 ≠ LLM._generate_cache_key model msgs2 kw1) := by
  constructor
  · intro h
    simp [LLM._generate_cache_key, insertionSort_kwLe_eq_of_perm h]
  · intro _ hne hcontra
    simp only [LLM._generate_cache_key, LLM.CacheKey.mk.injEq] at hcontra
    exact hne hcontra.2.1

/-- Witness for C2: reordered options collide, reordered messages do not. -/
theorem c2_fingerprint_option_order_message_order_witness :
    LLM._generate_cache_key "m" [{ role := "user", content := "a" }]
        [("b", "2"), ("a", "1")]
      = LLM._generate_cache_key "m" [{ role := "user", content := "a" }]
        [("a", "1"), ("b", "2")]
    ∧ LLM._generate_cache_key "m"
        [{ role := "user", content := "a" }, { role := "user", content := "b" }] []
      ≠ LLM._generate_cache_key "m"
        [{ role := "user", content := "b" }, { role := "user", content := "a" }] [] :=
  ⟨(c2_fingerprint_option_order_message_order "m" [{ role := "user", content := "a" }]
      [] [] [("b", "2"), ("a", "1")] [("a", "1"), ("b", "2")]).1 (by decide),
   (c2_fingerprint_option_order_message_order "m" []
      [{ role := "user", content := "a" }, { role := "user", content := "b" }]
      [{ role := "user", content := "b" }, { role := "user", content := "a" }] [] []).2
      (by decide) (by decide)⟩

/-- Helper: a split over characters never produces the empty list of
pieces. -/
theorem splitNl_ne_nil (l : List Char) : splitNl l ≠ [] := by
  induction l with
  | nil => simp [splitNl]
  | cons c rest ih =>
    simp only [splitNl]
    split
    · simp
    · cases hr : splitNl rest with
      | nil => simp
      | cons p ps => simp

/-- Helper: the `split("=")` fold leaves an `=`-free tail untouched. -/
theorem foldl_lastSplit_no_eq (l : List Char) (acc : List Char) (h : '=' ∉ l) :
    l.foldl (fun acc c => if c = '=' then [] else acc ++ [c]) acc = acc ++ l := by
  induction l generalizing acc with
  | nil => simp
  | cons c rest ih =>
    simp only [List.mem_cons, not_or] at h
    rw [List.foldl_cons, if_neg (fun hh => h.1 hh.symm), ih _ h.2]
    simp

/-- Helper: `split("=")[-1]` of an `=`-free string is the string itself. -/
theorem lastSplitEq_no_eq (d : String) (h : '=' ∉ d.data) :
    Webhook.lastSplitEq d = d := by
  obtain ⟨dd⟩ := d
  simp only [Webhook.lastSplitEq, Webhook.lastSplitEqChars]
  rw [foldl_lastSplit_no_eq dd [] h]
  simp

/-- Helper: `split("=")[-1]` strips a `v1=` scheme prefix. -/
theorem lastSplitEq_v1_prefix (d : String) (h : '=' ∉ d.data) :
    Webhook.lastSplitEq ("v1=" ++ d) = d := by
  obtain ⟨dd⟩ := d
  have hdata : ("v1=" ++ (⟨dd⟩ : String)).data = 'v' :: '1' :: '=' :: dd := by
    simp [String.data_append]
  simp only [Webhook.lastSplitEq, Webhook.lastSplitEqChars, hdata, List.foldl_cons]
  norm_num
  rw [foldl_lastSplit_no_eq dd [] h]
  simp

/-- Helper: every byte `beBytes` emits is below 256. -/
theorem beBytes_mem_lt (n v : Nat) : ∀ x ∈ Crypto.beBytes n v, x < 256 := by
  induction n generalizing v with
  | zero => simp [Crypto.beBytes]
  | succ n ih =>
    intro x hx
    simp only [Crypto.beBytes, List.mem_append, List.mem_singleton] at hx
    rcases hx with hx | hx
    · exact ih _ x hx
    · omega

/-- Helper: every byte of a SHA-256 digest is below 256. -/
theorem sha256_mem_lt (m : List Nat) : ∀ x ∈ Crypto.sha256 m, x < 256 := by
  intro x hx
  simp only [Crypto.sha256, List.mem_flatten, List.mem_map] at hx
  obtain ⟨l, ⟨w, _, rfl⟩, hxl⟩ := hx
  exact beBytes_mem_lt 4 w x hxl

/-- Helper: a nibble's hex character is never `=`. -/
theorem hexChar_ne_eq (n : Nat) (h : n < 16) : Crypto.hexChar n ≠ '=' := by
  interval_cases n <;> decide

/-- Helper: the hex digest of a byte list contains no `=`. -/
theorem hexDigest_no_eq (bs : List Nat) (h : ∀ b ∈ bs, b < 256) :
    '=' ∉ (Crypto.hexDigest bs).data := by
  intro hmem
  have hmem' : '=' ∈ bs.flatMap Crypto.hexByte := hmem
  simp only [List.mem_flatMap] at hmem'
  obtain ⟨b, hb, hmemb⟩ := hmem'
  have hblt := h b hb
  simp only [Crypto.hexByte, List.mem_cons, List.mem_singleton,
    List.not_mem_nil, or_false] at hmemb
  rcases hmemb with hc | hc
  · exact hexChar_ne_eq (b / 16) (by omega) hc.symm
  · exact hexChar_ne_eq (b % 16) (by omega) hc.symm

/-- Helper: one compression round preserves the 8-word state shape. -/
theorem roundFn_length (kw : Nat × Nat) (st : List Nat) :
    (Crypto.roundFn kw st).length = st.length := by
  unfold Crypto.roundFn
  split
  · simp_all
  · rfl

/-- Helper: the 64 rounds preserve the state length. -/
theorem compressRounds_length (l : List (Nat × Nat)) (st : List Nat) :
    (Crypto.compressRounds l st).length = st.length := by
  induction l generalizing st with
  | nil => rfl
  | cons kw rest ih => rw [Crypto.compressRounds, ih, roundFn_length]

/-- Helper: one chunk step preserves the 8-word hash state. -/
theorem sha256Compress_length (st chunk : List Nat) (h : st.length = 8) :
    (Crypto.sha256Compress st chunk).length = 8 := by
  simp only [Crypto.sha256Compress, List.length_map, List.length_zip,
    compressRounds_length, h]
  omega

/-- Helper: the hash state stays 8 words across all chunks. -/
theorem foldl_sha256Compress_length (chunks : List (List Nat)) (st : List Nat)
    (h : st.length = 8) :
    (chunks.foldl Crypto.sha256Compress st).length = 8 := by
  induction chunks generalizing st with
  | nil => exact h
  | cons c rest ih =>
    exact ih _ (sha256Compress_length _ _ h)

/-- Helper: serializing an 8-word state yields `4 * 8` bytes. -/
theorem flatten_beBytes_length (ws : List Nat) :
    ((ws.map (Crypto.beBytes 4)).flatten).length = 4 * ws.length := by
  induction ws with
  | nil => rfl
  | cons w rest ih =>
    have hlen : (Crypto.beBytes 4 w).length = 4 := rfl
    simp only [List.map_cons, List.flatten_cons, List.length_append, hlen, ih,
      List.length_cons]
    ring

/-- Helper: a SHA-256 digest is exactly 32 bytes. -/
theorem sha256_length (m : List Nat) : (Crypto.sha256 m).length = 32 := by
  unfold Crypto.sha256
  rw [flatten_beBytes_length, foldl_sha256Compress_length _ _ (by rfl)]

/-- Helper: hex expansion emits two characters per byte. -/
theorem flatMap_hexByte_length (bs : List Nat) :
    (bs.flatMap Crypto.hexByte).length = 2 * bs.length := by
  induction bs with
  | nil => rfl
  | cons b rest ih =>
    have h2 : (Crypto.hexByte b).length = 2 := rfl
    simp only [List.flatMap_cons, List.length_append, h2, ih, List.length_cons]
    ring

/-- Helper: a hex digest has two characters per byte. -/
theorem hexDigest_data_length (bs : List Nat) :
    (Crypto.hexDigest bs).data.length = 2 * bs.length :=
  flatMap_hexByte_length bs

/-- Helper: flipping a character always changes it. -/
theorem flipChar_ne (c : Char) : Webhook.flipChar c ≠ c := by
  unfold Webhook.flipChar
  split
  · rename_i hc
    rw [hc]
    decide
  · rename_i hc
    exact fun hh => hc hh.symm

/-- Helper: a flipped character is never `=`. -/
theorem flipChar_ne_eq (c : Char) : Webhook.flipChar c ≠ '=' := by
  unfold Webhook.flipChar
  split <;> decide

/-- Helper: flipping a byte inside the string changes the string. -/
theorem flipAt_ne (s : String) (i : Nat) (hi : i < s.data.length) :
    Webhook.flipAt s i ≠ s := by
  intro hcontra
  have hdata := congrArg String.data hcontra
  simp only [Webhook.flipAt] at hdata
  have hset := congrArg (fun l => l[i]?) hdata
  simp only [List.getElem?_set_self'] at hset
  have hget : s.data[i]? = some s.data[i] := List.getElem?_eq_getElem hi
  rw [hget] at hset
  simp only [Option.map_eq_map, Option.map_some, Function.const_apply] at hset
  have hgetD : s.data.getD i '0' = s.data[i] := by
    rw [List.getD_eq_getElem?_getD, hget]
    rfl
  rw [hgetD] at hset
  have := Option.some.inj hset
  exact flipChar_ne s.data[i] this

/-- Helper: flipping a byte of an `=`-free string keeps it `=`-free. -/
theorem flipAt_no_eq (s : String) (i : Nat) (h : '=' ∉ s.data) :
    '=' ∉ (Webhook.flipAt s i).data := by
  intro hmem
  rcases List.mem_or_eq_of_mem_set hmem with hmem' | hmem'
  · exact h hmem'
  · exact flipChar_ne_eq _ hmem'.symm

/-- Helper: an HMAC-SHA256 digest is a 32-byte list of bytes. -/
theorem hmacSha256_mem_lt (k m : List Nat) :
    ∀ x ∈ Crypto.hmacSha256 k m, x < 256 := by
  simp only [Crypto.hmacSha256]
  exact sha256_mem_lt _

/-- Helper: an HMAC-SHA256 digest has 32 bytes. -/
theorem hmacSha256_length (k m : List Nat) : (Crypto.hmacSha256 k m).length = 32 := by
  simp only [Crypto.hmacSha256]
  exact sha256_length _

/-- Helper: the hex HMAC digest is a 64-character string. -/
theorem hmac_hexDigest_length (k m : List Nat) :
    (Crypto.hexDigest (Crypto.hmacSha256 k m)).data.length = 64 := by
  rw [hexDigest_data_length, hmacSha256_length]

/-- Helper: the hex HMAC digest contains no `=`. -/
theorem hmac_hexDigest_no_eq (k m : List Nat) :
    '=' ∉ (Crypto.hexDigest (Crypto.hmacSha256 k m)).data :=
  hexDigest_no_eq _ (hmacSha256_mem_lt k m)

/-- Helper: a `v1=`-prefixed header value is never the empty string. -/
theorem v1_prefixed_ne_empty (d : String) : ("v1=" ++ d) ≠ "" := by
  intro hcontra
  have h2 : ("v1=" ++ d).data = [] := by rw [hcontra]
  rw [String.data_append] at h2
  exact absurd (List.append_eq_nil.mp h2).1 (by decide)

/-- Helper: the hex HMAC digest is never the empty string. -/
theorem hmac_hexDigest_ne_empty (k m : List Nat) :
    Crypto.hexDigest (Crypto.hmacSha256 k m) ≠ "" := by
  intro hcontra
  have h2 := congrArg (fun s => s.data.length) hcontra
  simp only [] at h2
  rw [hmac_hexDigest_length] at h2
  simp at h2

/-- Helper: `split("=")[-1]` also strips the mangled `01=` prefix that
flipping the first byte of `v1=` produces. -/
theorem lastSplitEq_01_prefix (d : String) (h : '=' ∉ d.data) :
    Webhook.lastSplitEq ⟨'0' :: '1' :: '=' :: d.data⟩ = d := by
  obtain ⟨dd⟩ := d
  simp only [Webhook.lastSplitEq, Webhook.lastSplitEqChars, List.foldl_cons]
  norm_num
  rw [foldl_lastSplit_no_eq dd [] h]
  simp

/-- Helper: flipping the first header byte of a `v1=`-prefixed V2 signature
turns `v1=` into `01=`; the verifier still strips everything up to the last
`=` and accepts the unchanged digest. -/
theorem v2_prefix_flip_accepted (secret ts body : List Nat)
    (hsec : secret ≠ []) (hts : ts ≠ []) :
    Webhook.notionWebhookVerify
      { sigV2 := some (Webhook.flipAt
          ("v1=" ++ Crypto.hexDigest (Crypto.hmacSha256 secret (ts ++ 58 :: body))) 0),
        timestamp := some ts, sigV1 := none } body secret = .accepted := by
  have hdata : Webhook.flipAt
      ("v1=" ++ Crypto.hexDigest (Crypto.hmacSha256 secret (ts ++ 58 :: body))) 0
      = (⟨'0' :: '1' :: '=' ::
          (Crypto.hexDigest (Crypto.hmacSha256 secret (ts ++ 58 :: body))).data⟩ : String) := by
    simp only [Webhook.flipAt, String.data_append]
    rfl
  rw [hdata]
  have hne : (⟨'0' :: '1' :: '=' ::
      (Crypto.hexDigest (Crypto.hmacSha256 secret (ts ++ 58 :: body))).data⟩ : String)
      ≠ "" := by
    simp [String.ext_iff]
  simp only [Webhook.notionWebhookVerify, Webhook.truthyStr, Webhook.truthyBytes,
    if_neg hne, if_neg hts, if_neg hsec,
    lastSplitEq_01_prefix _ (hmac_hexDigest_no_eq secret (ts ++ 58 :: body)),
    Webhook.compare_digest, beq_self_eq_true, if_true]

/-- C5, counterexample to the claim as stated: under V2 a signature header
with a flipped byte is **not** always rejected — flipping the first byte of
the `v1=` scheme prefix (secret `[1]`, timestamp `"1"`, body `[2]`) yields a
header that still verifies, because the code compares only the portion after
the last `=` and never validates the scheme prefix. -/
theorem c5_signature_verification_counterexample :
    Webhook.notionWebhookVerify
      { sigV2 := some (Webhook.flipAt
          ("v1=" ++ Crypto.hexDigest (Crypto.hmacSha256 [1] ([49] ++ 58 :: [2]))) 0),
        timestamp := some [49], sigV1 := none } [2] [1] = .accepted
    ∧ Webhook.flipAt
        ("v1=" ++ Crypto.hexDigest (Crypto.hmacSha256 [1] ([49] ++ 58 :: [2]))) 0
      ≠ "v1=" ++ Crypto.hexDigest (Crypto.hmacSha256 [1] ([49] ++ 58 :: [2])) := by
  constructor
  · exact v2_prefix_flip_accepted [1] [49] [2] (by decide) (by decide)
  · refine flipAt_ne _ 0 ?_
    rw [String.data_append, List.length_append, hmac_hexDigest_length]
    omega

/-- C5, amended: V2 verification computes HMAC-SHA256 with the shared secret
over `timestamp ‖ ":" ‖ body` and compares the hex digest against the
signature header's portion after the last `=` (the comparison is modelled
functionally; constant-time execution is a timing property); V1 signs the
raw body alone.  An unmodified body signed with the configured secret is
accepted under both schemes, and flipping any byte of the **digest portion**
of the header is rejected under both schemes.  The amendment: under V2 only
the digest portion is protected — a byte flipped inside the `v1=` scheme
prefix is not detected (see the counterexample), since the prefix is
stripped, not validated. -/
theorem c5_signature_verification_amended (secret ts body : List Nat) (i : Nat)
    (hsec : secret ≠ []) (hts : ts ≠ []) (hi : i < 64) :
    (Webhook.notionWebhookVerify
      { sigV2 := some ("v1=" ++ Crypto.hexDigest (Crypto.hmacSha256 secret (ts ++ 58 :: body))),
        timestamp := some ts, sigV1 := none } body secret = .accepted)
    ∧ (Webhook.notionWebhookVerify
      { sigV2 := none, timestamp := none,
        sigV1 := some (Crypto.hexDigest (Crypto.hmacSha256 secret body)) } body secret
      = .accepted)
    ∧ (Webhook.notionWebhookVerify
      { sigV2 := some ("v1=" ++ Webhook.flipAt
          (Crypto.hexDigest (Crypto.hmacSha256 secret (ts ++ 58 :: body))) i),
        timestamp := some ts, sigV1 := none } body secret = .abortInvalidSignature)
    ∧ (Webhook.notionWebhookVerify
      { sigV2 := none, timestamp := none,
        sigV1 := some (Webhook.flipAt
          (Crypto.hexDigest (Crypto.hmacSha256 secret body)) i) } body secret
      = .abortInvalidSignature) := by
  refine ⟨?_, ?_, ?_, ?_⟩
  · simp only [Webhook.notionWebhookVerify, Webhook.truthyStr, Webhook.truthyBytes,
      if_neg (v1_prefixed_ne_empty _), if_neg hts, if_neg hsec,
      lastSplitEq_v1_prefix _ (hmac_hexDigest_no_eq secret (ts ++ 58 :: body)),
      Webhook.compare_digest, beq_self_eq_true, if_true]
  · simp only [Webhook.notionWebhookVerify, Webhook.truthyStr, Webhook.truthyBytes,
      if_neg (hmac_hexDigest_ne_empty secret body), if_neg hsec,
      lastSplitEq_no_eq _ (hmac_hexDigest_no_eq secret body),
      Webhook.compare_digest, beq_self_eq_true, if_true]
  · have hflipne : Webhook.flipAt
        (Crypto.hexDigest (Crypto.hmacSha256 secret (ts ++ 58 :: body))) i
        ≠ Crypto.hexDigest (Crypto.hmacSha256 secret (ts ++ 58 :: body)) :=
      flipAt_ne _ i (by rw [hmac_hexDigest_length]; exact hi)
    simp only [Webhook.notionWebhookVerify, Webhook.truthyStr, Webhook.truthyBytes,
      if_neg (v1_prefixed_ne_empty _), if_neg hts, if_neg hsec,
      lastSplitEq_v1_prefix _
        (flipAt_no_eq _ i (hmac_hexDigest_no_eq secret (ts ++ 58 :: body))),
      Webhook.compare_digest]
    rw [if_neg]
    simp only [beq_iff_eq]
    exact fun hh => hflipne hh.symm
  · have hflipne : Webhook.flipAt (Crypto.hexDigest (Crypto.hmacSha256 secret body)) i
        ≠ Crypto.hexDigest (Crypto.hmacSha256 secret body) :=
      flipAt_ne _ i (by rw [hmac_hexDigest_length]; exact hi)
    have hfne : Webhook.flipAt (Crypto.hexDigest (Crypto.hmacSha256 secret body)) i
        ≠ "" := by
      intro hcontra
      have h2 := congrArg (fun s => s.data.length) hcontra
      simp only [Webhook.flipAt, List.length_set] at h2
      rw [hmac_hexDigest_length] at h2
      simp at h2
    simp only [Webhook.notionWebhookVerify, Webhook.truthyStr, Webhook.truthyBytes,
      if_neg hfne, if_neg hsec,
      lastSplitEq_no_eq _ (flipAt_no_eq _ i (hmac_hexDigest_no_eq secret body)),
      Webhook.compare_digest]
    rw [if_neg]
    simp only [beq_iff_eq]
    exact fun hh => hflipne hh.symm

/-- Witness for C5 (amended) at secret `[1]`, timestamp `"1"`, body `[2]`,
flip index 3. -/
theorem c5_signature_verification_amended_witness :
    (Webhook.notionWebhookVerify
      { sigV2 := some ("v1=" ++ Crypto.hexDigest (Crypto.hmacSha256 [1] ([49] ++ 58 :: [2]))),
        timestamp := some [49], sigV1 := none } [2] [1] = .accepted)
    ∧ (Webhook.notionWebhookVerify
      { sigV2 := none, timestamp := none,
        sigV1 := some (Crypto.hexDigest (Crypto.hmacSha256 [1] [2])) } [2] [1]
      = .accepted)
    ∧ (Webhook.notionWebhookVerify
      { sigV2 := some ("v1=" ++ Webhook.flipAt
          (Crypto.hexDigest (Crypto.hmacSha256 [1] ([49] ++ 58 :: [2]))) 3),
        timestamp := some [49], sigV1 := none } [2] [1] = .abortInvalidSignature)
    ∧ (Webhook.notionWebhookVerify
      { sigV2 := none, timestamp := none,
        sigV1 := some (Webhook.flipAt
          (Crypto.hexDigest (Crypto.hmacSha256 [1] [2])) 3) } [2] [1]
      = .abortInvalidSignature) :=
  c5_signature_verification_amended [1] [49] [2] 3 (by decide) (by decide) (by decide)

/-- C6: a verified page event whose read status is anything but
`"Ready for analysis"` — `"Done"`, any other value, or undetermined —
triggers zero status transitions, zero content fetches and zero
completion-client calls; and on an eligible run the very first action after
the eligibility read is the transition to `"In progress"`, before any page
fetch, content fetch, conversion or completion call (all of which sit in the
remainder of the trace). -/
theorem c6_status_gate {J : Type} (env : Webhook.EventEnv J) (pid : String)
    (hpid : Webhook.resolvePageId env = some pid)
    (htype : Webhook.isPageEvent env = true) :
    (env.pageStatus ≠ some "Ready for analysis" →
      ((Webhook.processEvent env).1.filterMap Webhook.statusWritten = []
        ∧ (Webhook.processEvent env).1.filter Webhook.isContentFetch = []
        ∧ (Webhook.processEvent env).1.filter Webhook.isCompletionCall = []))
    ∧ (env.pageStatus = some "Ready for analysis" →
      ∃ rest, (Webhook.processEvent env).1
        = Webhook.PipeAction.readStatus pid
          :: Webhook.PipeAction.updateStatus pid "In progress" :: rest) := by
  constructor
  · intro hst
    cases hstatus : env.pageStatus with
    | none =>
      simp [Webhook.processEvent, hpid, htype, hstatus, Webhook.statusWritten,
        Webhook.isContentFetch, Webhook.isCompletionCall]
    | some st =>
      have hne : st ≠ "Ready for analysis" := by
        intro hh
        exact hst (by rw [hstatus, hh])
      simp [Webhook.processEvent, hpid, htype, hstatus, if_neg hne,
        Webhook.statusWritten, Webhook.isContentFetch, Webhook.isCompletionCall]
  · intro hst
    refine ⟨(Webhook.processEligible env pid).tail, ?_⟩
    simp only [Webhook.processEvent, hpid, htype, hst, if_true]
    rfl

/-- Witness for C6 at two concrete events: one whose page status is `"Done"`
(nothing happens beyond the status read), one `"Ready for analysis"` (the
`"In progress"` transition comes first). -/
theorem c6_status_gate_witness :
    ((some "Done" : Option String) ≠ some "Ready for analysis" →
      ((Webhook.processEvent (sampleEnv (some "Done") none)).1.filterMap
          Webhook.statusWritten = []
        ∧ (Webhook.processEvent (sampleEnv (some "Done") none)).1.filter
            Webhook.isContentFetch = []
        ∧ (Webhook.processEvent (sampleEnv (some "Done") none)).1.filter
            Webhook.isCompletionCall = []))
    ∧ ((some "Ready for analysis" : Option String) = some "Ready for analysis" →
      ∃ rest, (Webhook.processEvent (sampleEnv (some "Ready for analysis") none)).1
        = Webhook.PipeAction.readStatus "page-1"
          :: Webhook.PipeAction.updateStatus "page-1" "In progress" :: rest) :=
  ⟨(c6_status_gate (sampleEnv (some "Done") none) "page-1" (by decide) (by decide)).1,
   (c6_status_gate (sampleEnv (some "Ready for analysis") none) "page-1"
      (by decide) (by decide)).2⟩

/-- C7: a verified eligible page event whose page and content fetches
succeed and whose completion call returns text that parses as JSON performs
exactly two status transitions — `"In progress"` first, `"Done"` second —
and appends exactly one block, holding the re-rendered parsed JSON
(`json.dumps(parsed_json, indent=2)`). -/
theorem c7_happy_path_two_transitions_one_block {J : Type}
    (env : Webhook.EventEnv J) (pid s : String) (j : J)
    (resp : LLM.ModelResponse)
    (hpid : Webhook.resolvePageId env = some pid)
    (htype : Webhook.isPageEvent env = true)
    (hst : env.pageStatus = some "Ready for analysis")
    (hgp : env.getPageOk = true) (hgc : env.getContentOk = true)
    (hllm : env.llmResponse = some resp)
    (hcontent : Webhook.contentOf (some resp) = some s)
    (hjson : env.jsonParse s = some j) :
    (Webhook.processEvent env).1.filterMap Webhook.statusWritten
      = ["In progress", "Done"]
    ∧ (Webhook.processEvent env).1.filterMap Webhook.contentAppended
      = [env.dumps j] := by
  have hco : Webhook.contentOf env.llmResponse = some s := by rw [hllm]; exact hcontent
  constructor <;>
    simp [Webhook.processEvent, hpid, htype, hst, Webhook.processEligible, hgp, hgc,
      hco, hjson, Webhook.statusWritten, Webhook.contentAppended]

/-- Witness for C7 at a concrete eligible event whose completion returns the
parseable text `"{}"`. -/
theorem c7_happy_path_two_transitions_one_block_witness :
    (Webhook.processEvent (sampleEnv (some "Ready for analysis")
        (some { id := "r", usage := none,
                choices := [{ message := { content := some "\x7b\x7d" } }] }))).1.filterMap
        Webhook.statusWritten
      = ["In progress", "Done"]
    ∧ (Webhook.processEvent (sampleEnv (some "Ready for analysis")
        (some { id := "r", usage := none,
                choices := [{ message := { content := some "\x7b\x7d" } }] }))).1.filterMap
        Webhook.contentAppended
      = [(sampleEnv (some "Ready for analysis") none).dumps 0] :=
  c7_happy_path_two_transitions_one_block
    (sampleEnv (some "Ready for analysis")
      (some { id := "r", usage := none,
              choices := [{ message := { content := some "\x7b\x7d" } }] }))
    "page-1" "\x7b\x7d" 0
    { id := "r", usage := none, choices := [{ message := { content := some "\x7b\x7d" } }] }
    (by decide) (by decide) (by decide) (by decide) (by decide) (by decide)
    (by decide) (by decide)

/-- C8: a verified eligible page event whose completion call returns text
that does not parse as JSON ends with the page status set to
`"Error Processing"` (after the initial `"In progress"`) and appends no
block. -/
theorem c8_unparsable_json_error_path {J : Type}
    (env : Webhook.EventEnv J) (pid s : String) (resp : LLM.ModelResponse)
    (hpid : Webhook.resolvePageId env = some pid)
    (htype : Webhook.isPageEvent env = true)
    (hst : env.pageStatus = some "Ready for analysis")
    (hgp : env.getPageOk = true) (hgc : env.getContentOk = true)
    (hllm : env.llmResponse = some resp)
    (hcontent : Webhook.contentOf (some resp) = some s)
    (hjson : env.jsonParse s = none) :
    (Webhook.processEvent env).1.filterMap Webhook.statusWritten
      = ["In progress", "Error Processing"]
    ∧ (Webhook.processEvent env).1.filterMap Webhook.contentAppended = [] := by
  have hco : Webhook.contentOf env.llmResponse = some s := by rw [hllm]; exact hcontent
  constructor <;>
    simp [Webhook.processEvent, hpid, htype, hst, Webhook.processEligible, hgp, hgc,
      hco, hjson, Webhook.statusWritten, Webhook.contentAppended]

/-- Witness for C8 at a concrete eligible event whose completion returns the
unparsable text `"ok"`. -/
theorem c8_unparsable_json_error_path_witness :
    (Webhook.processEvent (sampleEnv (some "Ready for analysis")
        (some sampleResp))).1.filterMap Webhook.statusWritten
      = ["In progress", "Error Processing"]
    ∧ (Webhook.processEvent (sampleEnv (some "Ready for analysis")
        (some sampleResp))).1.filterMap Webhook.contentAppended = [] :=
  c8_unparsable_json_error_path (sampleEnv (some "Ready for analysis") (some sampleResp))
    "page-1" "ok" sampleResp
    (by decide) (by decide) (by decide) (by decide) (by decide) (by decide)
    (by decide) (by decide)

/-- C10: a verified eligible page event whose completion client returns no
usable result — no response at all, an empty choice list, or a choice whose
message content is absent or empty — transitions the page to
`"Error Processing"` and appends no block. -/
theorem c10_absent_completion_error_path {J : Type}
    (env : Webhook.EventEnv J) (pid : String)
    (hpid : Webhook.resolvePageId env = some pid)
    (htype : Webhook.isPageEvent env = true)
    (hst : env.pageStatus = some "Ready for analysis")
    (hgp : env.getPageOk = true) (hgc : env.getContentOk = true)
    (hcontent : Webhook.contentOf env.llmResponse = none) :
    (Webhook.processEvent env).1.filterMap Webhook.statusWritten
      = ["In progress", "Error Processing"]
    ∧ (Webhook.processEvent env).1.filterMap Webhook.contentAppended = [] := by
  constructor <;>
    simp [Webhook.processEvent, hpid, htype, hst, Webhook.processEligible, hgp, hgc,
      hcontent, Webhook.statusWritten, Webhook.contentAppended]

/-- Witness for C10 at a concrete eligible event whose completion client
returns nothing. -/
theorem c10_absent_completion_error_path_witness :
    (Webhook.processEvent (sampleEnv (some "Ready for analysis") none)).1.filterMap
        Webhook.statusWritten
      = ["In progress", "Error Processing"]
    ∧ (Webhook.processEvent (sampleEnv (some "Ready for analysis") none)).1.filterMap
        Webhook.contentAppended = [] :=
  c10_absent_completion_error_path (sampleEnv (some "Ready for analysis") none)
    "page-1" (by decide) (by decide) (by decide) (by decide) (by decide) (by decide)
